import Mathlib

/-!
Verification development for the SchemaReg repository (`src/api.py`,
`src/models.py`): a FastAPI JSON-Schema registry storing Schema and
Dataset records in a SQL table, with create/read/update/delete and
search handlers.

The embedding models the handler logic of `api.py` over an explicit
store state (a list of schema rows and a list of dataset rows, in
insertion order, as the SQL tables behave under the handlers' queries).
External library calls are modelled executably:
 - `json.loads`   -> `parseJson` (recursive-descent parser; JSON numbers
   are restricted to integers, `\u` escapes unmodelled — no handler
   behaviour in scope depends on floats or unicode escapes);
 - `json.dumps` / the textual cast of a JSONB column -> `Json.dumps`;
 - SQL `ILIKE '%q%'` -> `ilike` (case-insensitive LIKE with `%`/`_`);
 - the PostgreSQL case-insensitive regex operator `~*` ->
   `compileRegex`/`reSearch`, covering the regex fragment of literal
   characters, `.`, and the `*`/`+`/`?` quantifiers; patterns using
   other metacharacters are out of the modelled fragment and make the
   search return `none` (the database errors on such queries or needs
   constructs the model omits);
 - `jsonschema.validator_for(s).check_schema(s)` -> `check_schema`
   (meta-schema legality of the `type`/`required`/`properties`
   keywords, other keywords admitted);
 - `jsonschema.validate(instance, schema)` -> `validateInstance`
   (the `type`/`required`/`properties` keywords, other keywords
   admitted, boolean schemas supported).

A handler that raises `HTTPException` before `db.commit()` leaves the
database unchanged (the uncommitted session is discarded), so each
handler is a function `... -> Except ApiError (row × Store)` whose
error branch carries no new store. The `name` columns of both tables
carry a UNIQUE constraint (models.py lines 23 and 65); the update
handlers' pre-checks do not cover an applied empty-string name, so
commit-time enforcement of that constraint — `db.commit()` raising
`IntegrityError`, which escapes the handler as an unhandled 500 with
the transaction rolled back and nothing persisted — is modelled by
`update_schema_committed` and `update_dataset_committed` layered on
the handler functions.
-/

/-- A JSON value, as produced by `json.loads` (numbers restricted to
integers; object member order preserved, as Python dicts do). -/
inductive Json where
  | null
  | bool (b : Bool)
  | num (n : Int)
  | str (s : String)
  | arr (elems : List Json)
  | obj (pairs : List (String × Json))
deriving Repr

/-- Skip JSON whitespace. -/
def skipWs : List Char → List Char
  | c :: rest => if c = ' ' || c = '\t' || c = '\n' || c = '\r' then skipWs rest else c :: rest
  | [] => []

/-- Parse the remainder of a JSON string literal (opening quote already
consumed), returning the string and the rest of the input. -/
def parseStringLit : List Char → Option (String × List Char)
  | '"' :: rest => some ("", rest)
  | '\\' :: c :: rest =>
      match parseStringLit rest with
      | some (s, r) =>
        let dec : Option Char := match c with
          | '"' => some '"' | '\\' => some '\\' | '/' => some '/'
          | 'n' => some '\n' | 't' => some '\t' | 'r' => some '\r'
          | 'b' => some (Char.ofNat 8) | 'f' => some (Char.ofNat 12)
          | _ => none
        match dec with
        | some ch => some (String.mk (ch :: s.data), r)
        | none => none
      | none => none
  | c :: rest =>
      match parseStringLit rest with
      | some (s, r) => some (String.mk (c :: s.data), r)
      | none => none
  | [] => none

/-- Take a maximal run of decimal digits. -/
def takeDigits : List Char → (List Char × List Char)
  | c :: rest =>
    if c.isDigit then
      let p := takeDigits rest
      (c :: p.1, p.2)
    else ([], c :: rest)
  | [] => ([], [])

def digitsToNat (ds : List Char) : Nat :=
  ds.foldl (fun acc c => acc * 10 + (c.toNat - 48)) 0

/-- True when the input continues with a fraction or exponent part
(which the model does not cover: such numbers fail to parse). -/
def startsFloatPart : List Char → Bool
  | '.' :: _ => true
  | 'e' :: _ => true
  | 'E' :: _ => true
  | _ => false

/-- Parse a JSON number (integer). -/
def parseNum : List Char → Option (Json × List Char)
  | '-' :: rest =>
    match takeDigits rest with
    | ([], _) => none
    | (ds, r) => if startsFloatPart r then none else some (.num (-(digitsToNat ds : Int)), r)
  | cs =>
    match takeDigits cs with
    | ([], _) => none
    | (ds, r) => if startsFloatPart r then none else some (.num (digitsToNat ds : Int), r)

mutual
/-- Parse one JSON value (fuel-indexed recursive descent). -/
def parseVal : Nat → List Char → Option (Json × List Char)
  | 0, _ => none
  | fuel+1, cs =>
    match skipWs cs with
    | '"' :: rest =>
      match parseStringLit rest with
      | some (s, r) => some (.str s, r)
      | none => none
    | 't' :: 'r' :: 'u' :: 'e' :: rest => some (.bool true, rest)
    | 'f' :: 'a' :: 'l' :: 's' :: 'e' :: rest => some (.bool false, rest)
    | 'n' :: 'u' :: 'l' :: 'l' :: rest => some (.null, rest)
    | '[' :: rest =>
      match skipWs rest with
      | ']' :: r => some (.arr [], r)
      | rest' =>
        match parseArrItems fuel rest' with
        | some (xs, r) => some (.arr xs, r)
        | none => none
    | '\x7b' :: rest =>
      match skipWs rest with
      | '\x7d' :: r => some (.obj [], r)
      | rest' =>
        match parseObjItems fuel rest' with
        | some (kvs, r) => some (.obj kvs, r)
        | none => none
    | cs' => parseNum cs'

/-- Parse the items of a non-empty JSON array up to and including `]`. -/
def parseArrItems : Nat → List Char → Option (List Json × List Char)
  | 0, _ => none
  | fuel+1, cs =>
    match parseVal fuel cs with
    | none => none
    | some (v, r) =>
      match skipWs r with
      | ',' :: r2 =>
        match parseArrItems fuel r2 with
        | some (xs, r3) => some (v :: xs, r3)
        | none => none
      | ']' :: r2 => some ([v], r2)
      | _ => none

/-- Parse the members of a non-empty JSON object up to and including
the closing brace. -/
def parseObjItems : Nat → List Char → Option (List (String × Json) × List Char)
  | 0, _ => none
  | fuel+1, cs =>
    match skipWs cs with
    | '"' :: rest =>
      match parseStringLit rest with
      | none => none
      | some (k, r) =>
        match skipWs r with
        | ':' :: r2 =>
          match parseVal fuel r2 with
          | none => none
          | some (v, r3) =>
            match skipWs r3 with
            | ',' :: r4 =>
              match parseObjItems fuel r4 with
              | some (kvs, r5) => some ((k, v) :: kvs, r5)
              | none => none
            | '\x7d' :: r4 => some ([(k, v)], r4)
            | _ => none
        | _ => none
    | _ => none
end

/-- Model of Python `json.loads`: parse a full JSON document, rejecting
trailing garbage. `none` models `json.JSONDecodeError`. -/
def parseJson (s : String) : Option Json :=
  match parseVal (2 * s.length + 4) s.data with
  | some (j, rest) => if skipWs rest = [] then some j else none
  | none => none

/-- Escape one character for JSON string output. -/
def escapeChar (c : Char) : String :=
  if c = '"' then "\\\""
  else if c = '\\' then "\\\\"
  else if c = '\n' then "\\n"
  else if c = '\t' then "\\t"
  else if c = '\r' then "\\r"
  else String.singleton c

def escapeString (s : String) : String :=
  s.data.foldl (fun acc c => acc ++ escapeChar c) ""

mutual
/-- Model of Python `json.dumps` with its default separators
(`", "` between items, `": "` after keys) — also the textual form of
a JSONB value that the search handlers' `cast(..., String)` matches
against. -/
def Json.dumps : Json → String
  | .null => "null"
  | .bool true => "true"
  | .bool false => "false"
  | .num n => toString n
  | .str s => "\"" ++ escapeString s ++ "\""
  | .arr xs => "[" ++ dumpsArr xs ++ "]"
  | .obj kvs => "\x7b" ++ dumpsObj kvs ++ "\x7d"

def dumpsArr : List Json → String
  | [] => ""
  | [x] => Json.dumps x
  | x :: rest => Json.dumps x ++ ", " ++ dumpsArr rest

def dumpsObj : List (String × Json) → String
  | [] => ""
  | [kv] => "\"" ++ escapeString kv.1 ++ "\": " ++ Json.dumps kv.2
  | kv :: rest =>
      "\"" ++ escapeString kv.1 ++ "\": " ++ Json.dumps kv.2 ++ ", " ++ dumpsObj rest
end

/-- SQL LIKE matching, case-insensitive (`%` any run, `_` any single
character), fuel-indexed; fuel `|pattern| + |s| + 1` always suffices
since every step shortens `pattern ++ s`. -/
def likeMatchCI : Nat → List Char → List Char → Bool
  | 0, _, _ => false
  | _+1, [], [] => true
  | fuel+1, '%' :: ps, s =>
      likeMatchCI fuel ps s ||
      (match s with
       | [] => false
       | _ :: s' => likeMatchCI fuel ('%' :: ps) s')
  | fuel+1, '_' :: ps, _ :: s => likeMatchCI fuel ps s
  | fuel+1, p :: ps, c :: s => p.toLower = c.toLower && likeMatchCI fuel ps s
  | _+1, _, _ => false

/-- Model of the SQL condition `column ILIKE '%q%'` as built by the
search handlers (`f"%{q}%"`). -/
def ilike (s q : String) : Bool :=
  let pat := '%' :: (q.data ++ ['%'])
  likeMatchCI (pat.length + s.data.length + 1) pat s.data

/-- An atom of the modelled regex fragment: a literal character or `.`. -/
inductive RAtom where
  | dot
  | lit (c : Char)
deriving Repr

/-- An atom with an optional quantifier. -/
inductive RPiece where
  | once (a : RAtom)
  | star (a : RAtom)
  | plus (a : RAtom)
  | opt (a : RAtom)
deriving Repr

/-- Regex metacharacters outside the modelled fragment (grouping,
classes, bounds, alternation, anchors, escapes), plus quantifiers in a
position with no preceding atom (a POSIX error). -/
def regexMeta : List Char := ['(', ')', '[', ']', '\x7b', '\x7d', '|', '^', '$', '\\', '*', '+', '?']

/-- The atom denoted by a non-metacharacter pattern character. -/
def mkAtom (c : Char) : RAtom :=
  if c = '.' then RAtom.dot else RAtom.lit c

/-- Compile a pattern of the modelled POSIX-regex fragment; `none` for
patterns outside the fragment. -/
def compileRegex : List Char → Option (List RPiece)
  | [] => some []
  | c :: '*' :: rest =>
      if c ∈ regexMeta then none
      else (compileRegex rest).map (RPiece.star (mkAtom c) :: ·)
  | c :: '+' :: rest =>
      if c ∈ regexMeta then none
      else (compileRegex rest).map (RPiece.plus (mkAtom c) :: ·)
  | c :: '?' :: rest =>
      if c ∈ regexMeta then none
      else (compileRegex rest).map (RPiece.opt (mkAtom c) :: ·)
  | c :: rest =>
      if c ∈ regexMeta then none
      else (compileRegex rest).map (RPiece.once (mkAtom c) :: ·)

/-- Case-insensitive atom match (the operator modelled is `~*`). -/
def atomMatch (a : RAtom) (c : Char) : Bool :=
  match a with
  | .dot => true
  | .lit l => l.toLower = c.toLower

/-- Match a piece list against a prefix of the input (fuel-indexed;
fuel `2*(|pieces| + |s|) + 2` always suffices). -/
def matchHere : Nat → List RPiece → List Char → Bool
  | 0, _, _ => false
  | _+1, [], _ => true
  | fuel+1, .once a :: ps, s =>
      match s with
      | [] => false
      | c :: s' => atomMatch a c && matchHere fuel ps s'
  | fuel+1, .opt a :: ps, s =>
      matchHere fuel ps s ||
      (match s with
       | [] => false
       | c :: s' => atomMatch a c && matchHere fuel ps s')
  | fuel+1, .star a :: ps, s =>
      matchHere fuel ps s ||
      (match s with
       | [] => false
       | c :: s' => atomMatch a c && matchHere fuel (.star a :: ps) s')
  | fuel+1, .plus a :: ps, s =>
      match s with
      | [] => false
      | c :: s' => atomMatch a c && matchHere fuel (.star a :: ps) s'

/-- Unanchored regex search (POSIX `~` finds a match anywhere). -/
def reSearch : Nat → List RPiece → List Char → Bool
  | 0, _, _ => false
  | fuel+1, ps, s =>
      matchHere (2 * (ps.length + s.length) + 2) ps s ||
      (match s with
       | [] => false
       | _ :: s' => reSearch fuel ps s')

/-- The condition `cast(content, String).op("~*")(q)` on one row, given
the compiled pattern. -/
def reMatches (ps : List RPiece) (s : String) : Bool :=
  reSearch (s.data.length + 1) ps s.data

/-- The seven JSON-Schema simple type names. -/
def typeNameOk (s : String) : Bool :=
  s == "object" || s == "array" || s == "string" || s == "number" ||
  s == "integer" || s == "boolean" || s == "null"

/-- Extract a list of strings from JSON array elements. -/
def asStrings : List Json → Option (List String)
  | [] => some []
  | .str s :: rest =>
      match asStrings rest with
      | some ss => some (s :: ss)
      | none => none
  | _ :: _ => none

/-- Meta-schema legality of a `type` keyword value: a simple type name
or a non-empty duplicate-free array of them. -/
def typeSpecLegal : Json → Bool
  | .str t => typeNameOk t
  | .arr ts =>
      match asStrings ts with
      | some ss => !ss.isEmpty && ss.all typeNameOk && decide ss.Nodup
      | none => false
  | _ => false

/-- Meta-schema legality of a `required` keyword value: a
duplicate-free array of strings. -/
def requiredLegal : Json → Bool
  | .arr ns =>
      match asStrings ns with
      | some ss => decide ss.Nodup
      | none => false
  | _ => false

mutual
/-- Model of `jsonschema.validators.validator_for(s).check_schema(s)`:
the document must be an object (whose `type`/`required`/`properties`
keywords are meta-schema-legal, other keywords admitted) or a boolean. -/
def check_schema : Json → Bool
  | .obj kvs => checkKeywords kvs
  | .bool _ => true
  | _ => false

def checkKeywords : List (String × Json) → Bool
  | [] => true
  | kv :: rest => checkKeyword kv.1 kv.2 && checkKeywords rest

def checkKeyword : String → Json → Bool
  | "type", v => typeSpecLegal v
  | "required", v => requiredLegal v
  | "properties", .obj props => checkProps props
  | "properties", _ => false
  | _, _ => true

def checkProps : List (String × Json) → Bool
  | [] => true
  | kv :: rest => check_schema kv.2 && checkProps rest
end

/-- Does instance `j` have the given simple type (`integer` and
`number` both cover the model's integer numbers)? -/
def typeMatches (t : String) (j : Json) : Bool :=
  match t, j with
  | "object", .obj _ => true
  | "array", .arr _ => true
  | "string", .str _ => true
  | "number", .num _ => true
  | "integer", .num _ => true
  | "boolean", .bool _ => true
  | "null", .null => true
  | _, _ => false

/-- Evaluate a `type` keyword value against an instance. -/
def typeSpecMatches (tv : Json) (j : Json) : Bool :=
  match tv with
  | .str t => typeMatches t j
  | .arr ts => ts.any (fun tj => match tj with | .str t => typeMatches t j | _ => false)
  | _ => false

/-- Member lookup in a JSON object (last binding wins, as in a Python
dict built by `json.loads`); `none` on non-objects. -/
def jsonObjGet (j : Json) (k : String) : Option Json :=
  match j with
  | .obj kvs =>
      match kvs.reverse.find? (fun kv => kv.1 == k) with
      | some kv => some kv.2
      | none => none
  | _ => none

/-- Evaluate a `required` keyword value (applies to object instances
only, per JSON Schema). -/
def requiredOk (names : List Json) (j : Json) : Bool :=
  match j with
  | .obj kvs =>
      names.all (fun nj =>
        match nj with
        | .str n => kvs.any (fun kv => kv.1 == n)
        | _ => false)
  | _ => true

mutual
/-- Model of `jsonschema.validate(instance, schema)` as a Boolean:
`true` iff validation raises no `ValidationError`. Keywords covered:
`type`, `required`, `properties`; boolean schemas; other keywords
admitted. Only meta-schema-legal schemas are ever passed to it by the
handlers in scope. -/
def validateInstance (inst : Json) (s : Json) : Bool :=
  match s with
  | .bool b => b
  | .obj kvs => validateKeywords inst kvs
  | _ => false
termination_by structural s

def validateKeywords (inst : Json) (kvs : List (String × Json)) : Bool :=
  match kvs with
  | [] => true
  | kv :: rest => validateKeyword inst kv.1 kv.2 && validateKeywords inst rest
termination_by structural kvs

def validateKeyword (inst : Json) (k : String) (v : Json) : Bool :=
  match k, v with
  | "type", tv => typeSpecMatches tv inst
  | "required", .arr names => requiredOk names inst
  | "required", _ => false
  | "properties", .obj props => validateProps inst props
  | "properties", _ => false
  | _, _ => true
termination_by structural v

/-- Keyword `properties`: each listed member present on an object instance must
validate against its subschema; absent members and non-object
instances pass. -/
def validateProps (inst : Json) (props : List (String × Json)) : Bool :=
  match props with
  | [] => true
  | kv :: rest =>
      (match jsonObjGet inst kv.1 with
       | some v => validateInstance v kv.2
       | none => true) && validateProps inst rest
termination_by structural props
end

/-- Is `needle` a prefix of `hay`? -/
def isPrefixOfChars : List Char → List Char → Bool
  | [], _ => true
  | _ :: _, [] => false
  | n :: ns, h :: hs => n == h && isPrefixOfChars ns hs

/-- Does `hay` contain `needle` as a contiguous substring? -/
def containsSub (needle : List Char) : List Char → Bool
  | [] => isPrefixOfChars needle []
  | h :: hs => isPrefixOfChars needle (h :: hs) || containsSub needle hs

/-- Case-insensitive substring containment — the spec's words for
`SearchByText` ("contains `query` as a case-insensitive substring"),
used to compare the spec against the code's search conditions. -/
def containsCI (hay needle : String) : Bool :=
  containsSub (needle.data.map Char.toLower) (hay.data.map Char.toLower)

/-- A row of the `json_schemas` table (`models.JSONSchemaDB`): the
autoincrement surrogate key and `created_at` timestamp are outside the
model; `schema_uuid` is the identifier every handler looks rows up by. -/
structure JSONSchemaDB where
  schema_uuid : String
  name : String
  description : Option String
  schema_content : Json
deriving Repr

/-- A row of the `json_datasets` table (`models.JSONDatasetDB`). -/
structure JSONDatasetDB where
  dataset_uuid : String
  schema_uuid : String
  name : String
  description : Option String
  dataset_content : Json
deriving Repr

/-- The database state: both tables, rows in insertion order. -/
structure Store where
  schemas : List JSONSchemaDB
  datasets : List JSONDatasetDB
deriving Repr

/-- Request body of `POST /schemas` (`models.SchemaCreate`). -/
structure SchemaCreate where
  name : String
  description : Option String
  schema_content : String

/-- Request body of `PUT /schemas/{uuid}` (`models.SchemaUpdate`);
`none` means the field was not supplied. -/
structure SchemaUpdate where
  name : Option String
  description : Option String
  schema_content : Option String

/-- Request body of `POST /datasets` (`models.DatasetCreate`). -/
structure DatasetCreate where
  name : String
  schema_uuid : String
  description : Option String
  dataset_content : String

/-- Request body of `PUT /datasets/{uuid}` (`models.DatasetUpdate`). -/
structure DatasetUpdate where
  name : Option String
  schema_uuid : Option String
  description : Option String
  dataset_content : Option String

/-- Response envelope of schema handlers (`models.SchemaResponse`):
`schema_content` is the JSON-encoded string of the stored document. -/
structure SchemaResponse where
  schema_uuid : String
  name : String
  description : Option String
  schema_content : String
deriving DecidableEq, Repr

/-- Response envelope of dataset handlers (`models.DatasetResponse`). -/
structure DatasetResponse where
  dataset_uuid : String
  schema_uuid : String
  name : String
  description : Option String
  dataset_content : String
deriving DecidableEq, Repr

/-- Function `models.json_schema_db_to_response`. -/
def json_schema_db_to_response (r : JSONSchemaDB) : SchemaResponse :=
  { schema_uuid := r.schema_uuid
    name := r.name
    description := r.description
    schema_content := Json.dumps r.schema_content }

/-- Function `models.json_dataset_db_to_response`. -/
def json_dataset_db_to_response (d : JSONDatasetDB) : DatasetResponse :=
  { dataset_uuid := d.dataset_uuid
    schema_uuid := d.schema_uuid
    name := d.name
    description := d.description
    dataset_content := Json.dumps d.dataset_content }

/-- The error outcomes of a request: the `HTTPException` kinds the
handlers raise, by `detail` text — 400 "name already exists" /
"Invalid JSON format" / "Invalid JSON Schema" / "Dataset validation
failed"; 404 "Schema with UUID ... not found" / "Schema not found" /
"Dataset not found" — and `integrityError`, the
`sqlalchemy.exc.IntegrityError` raised by `db.commit()` on a UNIQUE
constraint violation, which is not an `HTTPException` and escapes the
handler as an internal server error (500). -/
inductive ApiError where
  | duplicateName
  | malformedJSON
  | schemaInvalid
  | validationFailed
  | schemaNotFound
  | notFound
  | integrityError
deriving DecidableEq, Repr

/-- Query `db.query(JSONSchemaDB).filter(JSONSchemaDB.schema_uuid == u).first()`. -/
def findSchemaByUuid (st : Store) (u : String) : Option JSONSchemaDB :=
  st.schemas.find? (fun r => r.schema_uuid == u)

/-- Query `db.query(JSONSchemaDB).filter(JSONSchemaDB.name == n).first()`. -/
def findSchemaByName (st : Store) (n : String) : Option JSONSchemaDB :=
  st.schemas.find? (fun r => r.name == n)

/-- Query `db.query(JSONDatasetDB).filter(JSONDatasetDB.dataset_uuid == u).first()`. -/
def findDatasetByUuid (st : Store) (u : String) : Option JSONDatasetDB :=
  st.datasets.find? (fun d => d.dataset_uuid == u)

/-- Query `db.query(JSONDatasetDB).filter(JSONDatasetDB.name == n).first()`. -/
def findDatasetByName (st : Store) (n : String) : Option JSONDatasetDB :=
  st.datasets.find? (fun d => d.name == n)

/-- Handler `add_schema` (`POST /schemas`, api.py lines 133-179).
`fresh_uuid` stands for the generated `str(uuid.uuid4())`. -/
def add_schema (req : SchemaCreate) (fresh_uuid : String) (st : Store) :
    Except ApiError (JSONSchemaDB × Store) :=
  if (findSchemaByName st req.name).isSome then
    .error .duplicateName
  else
    match parseJson req.schema_content with
    | none => .error .malformedJSON
    | some parsed =>
      if check_schema parsed then
        let r : JSONSchemaDB :=
          { schema_uuid := fresh_uuid, name := req.name
            description := req.description, schema_content := parsed }
        .ok (r, { st with schemas := st.schemas ++ [r] })
      else .error .schemaInvalid

/-- Handler `get_schema_by_uuid` (`GET /schemas/{uuid}`). -/
def get_schema_by_uuid (uuid : String) (st : Store) : Except ApiError SchemaResponse :=
  match findSchemaByUuid st uuid with
  | none => .error .notFound
  | some r => .ok (json_schema_db_to_response r)

/-- The duplicate-name pre-check of `update_schema` (api.py lines
216-228): it runs only when the supplied name is truthy (non-empty)
and differs from the record's current name, and it fires when some
other row already has that name. -/
def schemaDupName (st : Store) (uuid : String) (cur : JSONSchemaDB)
    (nm : Option String) : Bool :=
  match nm with
  | some n =>
      !(n == "") && !(n == cur.name) &&
      (st.schemas.find? (fun r => r.name == n && !(r.schema_uuid == uuid))).isSome
  | none => false

/-- The field assignments of `update_schema` other than content
(`if ... is not None: schema.<field> = ...`). -/
def applySchemaFields (r : JSONSchemaDB) (upd : SchemaUpdate) : JSONSchemaDB :=
  let r1 := match upd.name with
            | some n => { r with name := n }
            | none => r
  match upd.description with
  | some d => { r1 with description := some d }
  | none => r1

/-- Commit of a mutated ORM row: replace the row with this uuid. -/
def setSchemaRow (st : Store) (uuid : String) (r : JSONSchemaDB) : Store :=
  { st with schemas := st.schemas.map (fun x => if x.schema_uuid == uuid then r else x) }

/-- Handler `update_schema` (`PUT /schemas/{uuid}`, api.py lines
203-263): lookup, duplicate-name pre-check, apply supplied
name/description, then parse and meta-schema-check supplied content;
any raise precedes the commit. This function is the handler's own
logic, with the commit taken as succeeding; commit-time enforcement of
the UNIQUE constraint on `json_schemas.name` is layered on in
`update_schema_committed`. -/
def update_schema (uuid : String) (upd : SchemaUpdate) (st : Store) :
    Except ApiError (JSONSchemaDB × Store) :=
  match findSchemaByUuid st uuid with
  | none => .error .notFound
  | some cur =>
    if schemaDupName st uuid cur upd.name then
      .error .duplicateName
    else
      let r2 := applySchemaFields cur upd
      match upd.schema_content with
      | none => .ok (r2, setSchemaRow st uuid r2)
      | some txt =>
        match parseJson txt with
        | none => .error .malformedJSON
        | some parsed =>
          if check_schema parsed then
            let r3 := { r2 with schema_content := parsed }
            .ok (r3, setSchemaRow st uuid r3)
          else .error .schemaInvalid

/-- Full behaviour of `PUT /schemas/{uuid}`: the handler logic
followed by `db.commit()`, which enforces the UNIQUE constraint on
`json_schemas.name` (models.py line 23). A commit whose updated row
carries a name already held by another live row raises
`IntegrityError`; it escapes the handler as a 500 and the transaction
is rolled back, so nothing is persisted — hence the error branch. The
handler's pre-check makes this reachable only through the
empty-string truthiness gap (or a name equal to the record's own in an
already-corrupt table). -/
def update_schema_committed (uuid : String) (upd : SchemaUpdate) (st : Store) :
    Except ApiError (JSONSchemaDB × Store) :=
  match update_schema uuid upd st with
  | .error e => .error e
  | .ok (r, st') =>
    if (st.schemas.find? (fun x => x.name == r.name && !(x.schema_uuid == uuid))).isSome then
      .error .integrityError
    else .ok (r, st')

/-- Handler `remove_schema` (`DELETE /schemas/{uuid}`, api.py lines
265-282): hard delete of the row with this uuid; the `json_datasets`
table is not touched. -/
def remove_schema (uuid : String) (st : Store) : Except ApiError Store :=
  match findSchemaByUuid st uuid with
  | none => .error .notFound
  | some _ => .ok { st with schemas := st.schemas.filter (fun r => !(r.schema_uuid == uuid)) }

/-- Handler `search_schemas` (`GET /schemas/search`, api.py lines
56-67): a row matches when `name ILIKE '%q%'`, or `description ILIKE
'%q%'` (a NULL description never matches), or the text form of
`schema_content` matches `q` under the case-insensitive regex operator
`~*`. `none` models the query erroring (or leaving the modelled regex
fragment). -/
def search_schemas (q : String) (st : Store) : Option (List JSONSchemaDB) :=
  match compileRegex q.data with
  | none => none
  | some ps =>
    some (st.schemas.filter (fun r =>
      ilike r.name q ||
      (match r.description with | some d => ilike d q | none => false) ||
      reMatches ps (Json.dumps r.schema_content)))

/-- Handler `add_dataset` (`POST /datasets`, api.py lines 389-449):
duplicate-name check, then referenced-schema lookup, then content
parse, then instance validation against the referenced schema. -/
def add_dataset (req : DatasetCreate) (fresh_uuid : String) (st : Store) :
    Except ApiError (JSONDatasetDB × Store) :=
  if (findDatasetByName st req.name).isSome then
    .error .duplicateName
  else
    match findSchemaByUuid st req.schema_uuid with
    | none => .error .schemaNotFound
    | some srec =>
      match parseJson req.dataset_content with
      | none => .error .malformedJSON
      | some parsed =>
        if validateInstance parsed srec.schema_content then
          let d : JSONDatasetDB :=
            { dataset_uuid := fresh_uuid, schema_uuid := req.schema_uuid
              name := req.name, description := req.description
              dataset_content := parsed }
          .ok (d, { st with datasets := st.datasets ++ [d] })
        else .error .validationFailed

/-- Handler `get_dataset_by_uuid` (`GET /datasets/{uuid}`). -/
def get_dataset_by_uuid (uuid : String) (st : Store) : Except ApiError DatasetResponse :=
  match findDatasetByUuid st uuid with
  | none => .error .notFound
  | some d => .ok (json_dataset_db_to_response d)

/-- The duplicate-name pre-check of `update_dataset` (api.py lines
503-515), mirroring `schemaDupName`. -/
def datasetDupName (st : Store) (uuid : String) (cur : JSONDatasetDB)
    (nm : Option String) : Bool :=
  match nm with
  | some n =>
      !(n == "") && !(n == cur.name) &&
      (st.datasets.find? (fun d => d.name == n && !(d.dataset_uuid == uuid))).isSome
  | none => false

/-- The field assignments of `update_dataset` other than content
(api.py lines 517-522): name, description, then `schema_uuid` — the
supplied `schema_uuid` is assigned to the row *before* any content
validation. -/
def applyDatasetFields (d : JSONDatasetDB) (upd : DatasetUpdate) : JSONDatasetDB :=
  let d1 := match upd.name with
            | some n => { d with name := n }
            | none => d
  let d2 := match upd.description with
            | some s => { d1 with description := some s }
            | none => d1
  match upd.schema_uuid with
  | some su => { d2 with schema_uuid := su }
  | none => d2

/-- Commit of a mutated ORM dataset row. -/
def setDatasetRow (st : Store) (uuid : String) (d : JSONDatasetDB) : Store :=
  { st with datasets := st.datasets.map (fun x => if x.dataset_uuid == uuid then d else x) }

/-- Handler `update_dataset` (`PUT /datasets/{uuid}`, api.py lines
490-561): lookup, duplicate-name pre-check, apply supplied
name/description/schema_uuid, and only if content is supplied: parse
it, look up the schema by the row's (possibly just reassigned)
`schema_uuid`, and validate the new content against that schema. This
is the handler's own logic with the commit taken as succeeding;
commit-time enforcement of the UNIQUE constraint on
`json_datasets.name` is layered on in `update_dataset_committed`. -/
def update_dataset (uuid : String) (upd : DatasetUpdate) (st : Store) :
    Except ApiError (JSONDatasetDB × Store) :=
  match findDatasetByUuid st uuid with
  | none => .error .notFound
  | some cur =>
    if datasetDupName st uuid cur upd.name then
      .error .duplicateName
    else
      let d3 := applyDatasetFields cur upd
      match upd.dataset_content with
      | none => .ok (d3, setDatasetRow st uuid d3)
      | some txt =>
        match parseJson txt with
        | none => .error .malformedJSON
        | some parsed =>
          match findSchemaByUuid st d3.schema_uuid with
          | none => .error .schemaNotFound
          | some srec =>
            if validateInstance parsed srec.schema_content then
              let d4 := { d3 with dataset_content := parsed }
              .ok (d4, setDatasetRow st uuid d4)
            else .error .validationFailed

/-- Full behaviour of `PUT /datasets/{uuid}`: the handler logic
followed by `db.commit()`, which enforces the UNIQUE constraint on
`json_datasets.name` (models.py line 65), mirroring
`update_schema_committed`. -/
def update_dataset_committed (uuid : String) (upd : DatasetUpdate) (st : Store) :
    Except ApiError (JSONDatasetDB × Store) :=
  match update_dataset uuid upd st with
  | .error e => .error e
  | .ok (d, st') =>
    if (st.datasets.find? (fun x => x.name == d.name && !(x.dataset_uuid == uuid))).isSome then
      .error .integrityError
    else .ok (d, st')

/-- Handler `remove_dataset` (`DELETE /datasets/{uuid}`). -/
def remove_dataset (uuid : String) (st : Store) : Except ApiError Store :=
  match findDatasetByUuid st uuid with
  | none => .error .notFound
  | some _ => .ok { st with datasets := st.datasets.filter (fun d => !(d.dataset_uuid == uuid)) }

/-- Handler `search_datasets` (`GET /datasets/search`, api.py lines
311-322), mirroring `search_schemas`. -/
def search_datasets (q : String) (st : Store) : Option (List JSONDatasetDB) :=
  match compileRegex q.data with
  | none => none
  | some ps =>
    some (st.datasets.filter (fun d =>
      ilike d.name q ||
      (match d.description with | some s => ilike s q | none => false) ||
      reMatches ps (Json.dumps d.dataset_content)))

/-- The spec's words for `SearchByText` on a schema row: name,
description, or serialized content contains the query as a
case-insensitive substring. Stated from the spec, for comparison with
`search_schemas`. -/
def specSearchMatchesSchema (q : String) (r : JSONSchemaDB) : Bool :=
  containsCI r.name q ||
  (match r.description with | some d => containsCI d q | none => false) ||
  containsCI (Json.dumps r.schema_content) q

/-! Concrete fixtures used by witnesses and counterexamples. -/

/-- The spec's example schema
`{"type":"object","required":["x"],"properties":{"x":{"type":"number"}}}`. -/
def xNumberSchemaDoc : Json :=
  .obj [("type", .str "object"), ("required", .arr [.str "x"]),
        ("properties", .obj [("x", .obj [("type", .str "number")])])]

/-- A schema requiring a member `y`. -/
def requireYSchemaDoc : Json :=
  .obj [("type", .str "object"), ("required", .arr [.str "y"])]

def rowS1 : JSONSchemaDB :=
  { schema_uuid := "su1", name := "s1", description := none, schema_content := xNumberSchemaDoc }

def rowS2 : JSONSchemaDB :=
  { schema_uuid := "su2", name := "s2", description := none, schema_content := requireYSchemaDoc }

def rowD1 : JSONDatasetDB :=
  { dataset_uuid := "du1", schema_uuid := "su1", name := "d1", description := none,
    dataset_content := .obj [("x", .num 1)] }

/-- Two schemas and one dataset referencing the first. -/
def baseStore : Store := { schemas := [rowS1, rowS2], datasets := [rowD1] }

/-- A schema row whose serialized content `[1]` contains no dot. -/
def rowSearch : JSONSchemaDB :=
  { schema_uuid := "uc", name := "s", description := none, schema_content := .arr [.num 1] }

def searchStore : Store := { schemas := [rowSearch], datasets := [] }

def rowA : JSONSchemaDB :=
  { schema_uuid := "ua", name := "a", description := none, schema_content := .obj [] }

/-- A schema row whose name is the empty string (creatable: `add_schema`
does not reject an empty name). -/
def rowEmptyName : JSONSchemaDB :=
  { schema_uuid := "ub", name := "", description := none, schema_content := .obj [] }

def emptyNameStore : Store := { schemas := [rowA, rowEmptyName], datasets := [] }

/-- A dataset row whose name is the empty string. -/
def rowDEmpty : JSONDatasetDB :=
  { dataset_uuid := "du2", schema_uuid := "su1", name := "", description := none,
    dataset_content := .obj [] }

/-- A store in which dataset `du2` already holds the empty name. -/
def emptyNameDsStore : Store := { schemas := [rowS1], datasets := [rowD1, rowDEmpty] }

/-! Helper lemmas about row replacement and lookup. -/

lemma findSchemaByUuid_uuid {st : Store} {u : String} {r : JSONSchemaDB}
    (h : findSchemaByUuid st u = some r) : r.schema_uuid = u := by
  have := List.find?_some h
  simpa using this

lemma findDatasetByUuid_uuid {st : Store} {u : String} {d : JSONDatasetDB}
    (h : findDatasetByUuid st u = some d) : d.dataset_uuid = u := by
  have := List.find?_some h
  simpa using this

/-- Replacing the row found at a uuid by itself leaves the table
unchanged, provided uuids are pairwise distinct (the `schema_uuid`
column carries a unique constraint). -/
lemma setSchemaRow_self {st : Store} {u : String} {r : JSONSchemaDB}
    (hfind : findSchemaByUuid st u = some r)
    (hnd : (st.schemas.map (fun x => x.schema_uuid)).Nodup) :
    setSchemaRow st u r = st := by
  have hmem : r ∈ st.schemas := List.mem_of_find?_eq_some hfind
  have hru : r.schema_uuid = u := findSchemaByUuid_uuid hfind
  have hinj := List.inj_on_of_nodup_map hnd
  have hmap : st.schemas.map (fun x => if x.schema_uuid == u then r else x) = st.schemas := by
    have := List.map_congr_left
      (l := st.schemas) (f := fun x => if x.schema_uuid == u then r else x) (g := id)
      (fun x hx => by
        by_cases hxu : x.schema_uuid = u
        · simp only [hxu, beq_self_eq_true, if_true, id]
          exact hinj hmem hx (by rw [hru, hxu])
        · simp [hxu])
    simpa using this
  unfold setSchemaRow
  rw [hmap]

lemma setDatasetRow_self {st : Store} {u : String} {d : JSONDatasetDB}
    (hfind : findDatasetByUuid st u = some d)
    (hnd : (st.datasets.map (fun x => x.dataset_uuid)).Nodup) :
    setDatasetRow st u d = st := by
  have hmem : d ∈ st.datasets := List.mem_of_find?_eq_some hfind
  have hdu : d.dataset_uuid = u := findDatasetByUuid_uuid hfind
  have hinj := List.inj_on_of_nodup_map hnd
  have hmap : st.datasets.map (fun x => if x.dataset_uuid == u then d else x) = st.datasets := by
    have := List.map_congr_left
      (l := st.datasets) (f := fun x => if x.dataset_uuid == u then d else x) (g := id)
      (fun x hx => by
        by_cases hxu : x.dataset_uuid = u
        · simp only [hxu, beq_self_eq_true, if_true, id]
          exact hinj hmem hx (by rw [hdu, hxu])
        · simp [hxu])
    simpa using this
  unfold setDatasetRow
  rw [hmap]

/-- C6: a failing `CreateSchema` call performs its checks in the order
duplicate-name, JSON-parse, schema-legality, and creates no record: the
store changes only on success, and then exactly by appending the new
row, so every failing call leaves the store exactly as it was. -/
theorem c6_create_schema_failure_order (req : SchemaCreate) (u : String) (st : Store) :
    ((findSchemaByName st req.name).isSome = true →
        add_schema req u st = .error .duplicateName)
    ∧ (findSchemaByName st req.name = none → parseJson req.schema_content = none →
        add_schema req u st = .error .malformedJSON)
    ∧ (∀ j, findSchemaByName st req.name = none → parseJson req.schema_content = some j →
        check_schema j = false → add_schema req u st = .error .schemaInvalid)
    ∧ (∀ r st', add_schema req u st = .ok (r, st') →
        findSchemaByName st req.name = none ∧
        st'.schemas = st.schemas ++ [r] ∧ st'.datasets = st.datasets) := by
  refine ⟨?_, ?_, ?_, ?_⟩
  · intro h
    simp [add_schema, h]
  · intro h hp
    simp [add_schema, h, hp]
  · intro j h hp hc
    simp [add_schema, h, hp, hc]
  · intro r st' h
    by_cases hn : (findSchemaByName st req.name).isSome
    · simp [add_schema, hn] at h
    · rw [Option.not_isSome_iff_eq_none] at hn
      refine ⟨hn, ?_⟩
      rcases hp : parseJson req.schema_content with _ | j
      · simp [add_schema, hn, hp] at h
      · by_cases hc : check_schema j
        · simp [add_schema, hn, hp, hc] at h
          obtain ⟨hr, hst⟩ := h
          subst hst
          simp [← hr]
        · simp [add_schema, hn, hp, hc] at h

/-- Witness for C6 on a concrete store: duplicate name, the spec's
`"{not json"` input, and a meta-schema-invalid document. -/
theorem c6_witness :
    add_schema { name := "s1", description := none, schema_content := "\x7bnot json" }
      "u9" baseStore = .error .duplicateName
    ∧ add_schema { name := "fresh", description := none, schema_content := "\x7bnot json" }
      "u9" baseStore = .error .malformedJSON
    ∧ add_schema { name := "fresh", description := none, schema_content := "\x7b\"type\": 123\x7d" }
      "u9" baseStore = .error .schemaInvalid :=
  ⟨(c6_create_schema_failure_order _ _ _).1 (by rfl),
   (c6_create_schema_failure_order _ _ _).2.1 (by rfl) (by rfl),
   (c6_create_schema_failure_order _ _ _).2.2.1 (.obj [("type", .num 123)])
     (by rfl) (by rfl) (by rfl)⟩

/-- C3: with a fresh dataset name, `CreateDataset` succeeds iff the
referenced schema exists, the content parses as JSON, and it validates
against that schema's content; a missing schema yields `SchemaNotFound`
and a validation failure yields `ValidationFailed`. -/
theorem c3_create_dataset_iff (req : DatasetCreate) (u : String) (st : Store)
    (hfresh : findDatasetByName st req.name = none) :
    ((∃ d st', add_dataset req u st = .ok (d, st')) ↔
      (∃ srec j, findSchemaByUuid st req.schema_uuid = some srec ∧
        parseJson req.dataset_content = some j ∧
        validateInstance j srec.schema_content = true))
    ∧ (findSchemaByUuid st req.schema_uuid = none →
        add_dataset req u st = .error .schemaNotFound)
    ∧ (∀ srec j, findSchemaByUuid st req.schema_uuid = some srec →
        parseJson req.dataset_content = some j →
        validateInstance j srec.schema_content = false →
        add_dataset req u st = .error .validationFailed) := by
  refine ⟨⟨?_, ?_⟩, ?_, ?_⟩
  · rintro ⟨d, st', h⟩
    rcases hs : findSchemaByUuid st req.schema_uuid with _ | srec
    · simp [add_dataset, hfresh, hs] at h
    · rcases hp : parseJson req.dataset_content with _ | j
      · simp [add_dataset, hfresh, hs, hp] at h
      · by_cases hv : validateInstance j srec.schema_content
        · exact ⟨srec, j, rfl, rfl, hv⟩
        · simp [add_dataset, hfresh, hs, hp, hv] at h
  · rintro ⟨srec, j, hs, hp, hv⟩
    refine ⟨{ dataset_uuid := u, schema_uuid := req.schema_uuid, name := req.name,
              description := req.description, dataset_content := j },
            { st with datasets := st.datasets ++
                [{ dataset_uuid := u, schema_uuid := req.schema_uuid, name := req.name,
                   description := req.description, dataset_content := j }] }, ?_⟩
    simp [add_dataset, hfresh, hs, hp, hv]
  · intro hs
    simp [add_dataset, hfresh, hs]
  · intro srec j hs hp hv
    simp [add_dataset, hfresh, hs, hp, hv]

/-- Request bodies of `CreateDataset` for the spec's P3 examples. -/
def reqDatasetOk : DatasetCreate :=
  { name := "dnew", schema_uuid := "su1", description := none,
    dataset_content := "\x7b\"x\": 1\x7d" }

def reqDatasetWrongType : DatasetCreate :=
  { name := "dnew", schema_uuid := "su1", description := none,
    dataset_content := "\x7b\"x\": \"a\"\x7d" }

def reqDatasetMissingX : DatasetCreate :=
  { name := "dnew", schema_uuid := "su1", description := none,
    dataset_content := "\x7b\x7d" }

def reqDatasetNoSchema : DatasetCreate :=
  { name := "dnew", schema_uuid := "nope", description := none,
    dataset_content := "\x7b\"x\": 1\x7d" }

/-- Witness for C3 on the spec's examples: schema
`{"type":"object","required":["x"],"properties":{"x":{"type":"number"}}}`,
content `{"x":1}` succeeds, `{"x":"a"}` and `{}` fail validation, and a
nonexistent schema uuid fails `SchemaNotFound`. -/
theorem c3_witness :
    (∃ d st', add_dataset reqDatasetOk "dun" baseStore = .ok (d, st'))
    ∧ add_dataset reqDatasetWrongType "dun" baseStore = .error .validationFailed
    ∧ add_dataset reqDatasetMissingX "dun" baseStore = .error .validationFailed
    ∧ add_dataset reqDatasetNoSchema "dun" baseStore = .error .schemaNotFound :=
  ⟨(c3_create_dataset_iff _ _ _ (by rfl)).1.mpr ⟨rowS1, .obj [("x", .num 1)], rfl, rfl, rfl⟩,
   (c3_create_dataset_iff _ _ _ (by rfl)).2.2 rowS1 (.obj [("x", .str "a")]) rfl rfl rfl,
   (c3_create_dataset_iff _ _ _ (by rfl)).2.2 rowS1 (.obj []) rfl rfl rfl,
   (c3_create_dataset_iff _ _ _ (by rfl)).2.1 rfl⟩

/-- C9: for a valid schema document, `CreateSchema` followed by
`GetByID` of the returned uuid yields a record whose stored content is
exactly the parsed input (no normalization), and the response carries
its JSON encoding. -/
theorem c9_create_then_get_roundtrip (req : SchemaCreate) (u : String) (st : Store) (j : Json)
    (hfresh : findSchemaByName st req.name = none)
    (hparse : parseJson req.schema_content = some j)
    (hchk : check_schema j = true)
    (huuid : findSchemaByUuid st u = none) :
    ∃ r st', add_schema req u st = .ok (r, st')
      ∧ r.schema_content = j
      ∧ get_schema_by_uuid u st' = .ok (json_schema_db_to_response r)
      ∧ (json_schema_db_to_response r).schema_content = Json.dumps j := by
  refine ⟨{ schema_uuid := u, name := req.name, description := req.description,
            schema_content := j },
          { st with schemas := st.schemas ++
              [{ schema_uuid := u, name := req.name, description := req.description,
                 schema_content := j }] }, ?_, rfl, ?_, rfl⟩
  · simp [add_schema, hfresh, hparse, hchk]
  · unfold findSchemaByUuid at huuid
    unfold get_schema_by_uuid findSchemaByUuid
    simp only [List.find?_append, huuid, Option.none_or]
    simp

/-- The `CreateSchema` request whose content is the spec's example
schema document. -/
def reqSchemaXNumber : SchemaCreate :=
  { name := "fresh", description := none, schema_content :=
    "\x7b\"type\":\"object\",\"required\":[\"x\"],\"properties\":\x7b\"x\":\x7b\"type\":\"number\"\x7d\x7d\x7d" }

/-- Witness for C9: creating the spec's example schema in `baseStore`
and reading it back. -/
theorem c9_witness :
    ∃ r st', add_schema reqSchemaXNumber "u9" baseStore = .ok (r, st')
      ∧ r.schema_content = xNumberSchemaDoc
      ∧ get_schema_by_uuid "u9" st' = .ok (json_schema_db_to_response r)
      ∧ (json_schema_db_to_response r).schema_content = Json.dumps xNumberSchemaDoc :=
  c9_create_then_get_roundtrip _ _ _ _ rfl rfl rfl rfl

/-- C7: deleting a schema that a dataset references succeeds and
leaves the dataset table — hence every referencing dataset row with
all its fields — exactly as it was (no cascading delete). -/
theorem c7_delete_schema_preserves_datasets (st : Store) (S : JSONSchemaDB) (D : JSONDatasetDB)
    (hS : S ∈ st.schemas) (hD : D ∈ st.datasets) (href : D.schema_uuid = S.schema_uuid) :
    ∃ st', remove_schema S.schema_uuid st = .ok st'
      ∧ st'.datasets = st.datasets ∧ D ∈ st'.datasets := by
  have hfind : (findSchemaByUuid st S.schema_uuid).isSome := by
    unfold findSchemaByUuid
    exact List.find?_isSome.mpr ⟨S, hS, by simp⟩
  obtain ⟨w, hw⟩ := Option.isSome_iff_exists.mp hfind
  refine ⟨{ st with schemas :=
      st.schemas.filter (fun r => !(r.schema_uuid == S.schema_uuid)) }, ?_, rfl, hD⟩
  simp [remove_schema, hw]

/-- Witness for C7: deleting `rowS1`, which `rowD1` references. -/
theorem c7_witness :
    ∃ st', remove_schema rowS1.schema_uuid baseStore = .ok st'
      ∧ st'.datasets = baseStore.datasets ∧ rowD1 ∈ st'.datasets :=
  c7_delete_schema_preserves_datasets baseStore rowS1 rowD1
    (by simp [baseStore]) (by simp [baseStore]) rfl

/-- C8: an update call supplying no fields succeeds, returns the
record with every field unchanged, and leaves the stored state
identical, for schemas and for datasets (uuid columns are unique, as
the tables' unique constraints guarantee). -/
theorem c8_empty_update_identity (st : Store) (u : String) :
    (∀ r, findSchemaByUuid st u = some r →
      (st.schemas.map (fun x => x.schema_uuid)).Nodup →
      update_schema u { name := none, description := none, schema_content := none } st
        = .ok (r, st))
    ∧ (∀ d, findDatasetByUuid st u = some d →
      (st.datasets.map (fun x => x.dataset_uuid)).Nodup →
      update_dataset u ⟨none, none, none, none⟩ st = .ok (d, st)) := by
  constructor
  · intro r hr hnd
    have hset := setSchemaRow_self hr hnd
    simp [update_schema, hr, schemaDupName, applySchemaFields, hset]
  · intro d hd hnd
    have hset := setDatasetRow_self hd hnd
    simp [update_dataset, hd, datasetDupName, applyDatasetFields, hset]

/-- Witness for C8 on `baseStore`. -/
theorem c8_witness :
    update_schema "su1" { name := none, description := none, schema_content := none }
      baseStore = .ok (rowS1, baseStore)
    ∧ update_dataset "du1" ⟨none, none, none, none⟩ baseStore = .ok (rowD1, baseStore) :=
  ⟨(c8_empty_update_identity baseStore "su1").1 rowS1 rfl (by decide),
   (c8_empty_update_identity baseStore "du1").2 rowD1 rfl (by decide)⟩

/-- C10 counterexample: "an empty-string name is applied without any
uniqueness check having been performed" is false of the full program:
in `emptyNameDsStore`, dataset `du2` already holds the empty name, and
updating `du1`'s name to `""` slips past the handler's pre-check but
is rejected at commit by the UNIQUE constraint on
`json_datasets.name` — the name is not applied, a uniqueness check did
happen, and the error is the commit's integrity error, not
`DuplicateName`. -/
theorem c10_counterexample :
    findDatasetByUuid emptyNameDsStore "du1" = some rowD1
    ∧ rowDEmpty ∈ emptyNameDsStore.datasets
    ∧ rowDEmpty.name = ""
    ∧ rowDEmpty.dataset_uuid ≠ "du1"
    ∧ update_dataset_committed "du1" ⟨some "", none, none, none⟩ emptyNameDsStore
        = .error .integrityError
    ∧ update_dataset_committed "du1" ⟨some "", none, none, none⟩ emptyNameDsStore
        ≠ .error .duplicateName := by
  refine ⟨rfl, by simp [emptyNameDsStore], rfl, by decide, rfl, ?_⟩
  intro h
  exact ApiError.noConfusion (Except.error.inj
    ((rfl : update_dataset_committed "du1" ⟨some "", none, none, none⟩ emptyNameDsStore
        = Except.error ApiError.integrityError).symm.trans h))

/-- C10 (amended): both update handlers skip the duplicate-name
pre-check when the supplied name equals the record's current name or
is the empty string. Renaming a record to its own name succeeds and
changes nothing. An empty-string name bypasses the pre-check and is
applied whenever no other row holds the empty name; when another row
does, the update is rejected only at commit by the table's UNIQUE
name constraint, as a generic integrity error, never `DuplicateName`. -/
theorem c10_name_precheck_skips (st : Store) (u : String) :
    (∀ r, findSchemaByUuid st u = some r →
      (st.schemas.map (fun x => x.schema_uuid)).Nodup →
      (st.schemas.map (fun x => x.name)).Nodup →
      update_schema_committed u ⟨some r.name, none, none⟩ st = .ok (r, st))
    ∧ (∀ r, findSchemaByUuid st u = some r →
      (∀ x ∈ st.schemas, x.schema_uuid ≠ u → x.name ≠ "") →
      update_schema_committed u ⟨some "", none, none⟩ st
        = .ok ({ r with name := "" }, setSchemaRow st u { r with name := "" }))
    ∧ (∀ r B, findSchemaByUuid st u = some r →
      B ∈ st.schemas → B.schema_uuid ≠ u → B.name = "" →
      update_schema_committed u ⟨some "", none, none⟩ st = .error .integrityError)
    ∧ (∀ d, findDatasetByUuid st u = some d →
      (st.datasets.map (fun x => x.dataset_uuid)).Nodup →
      (st.datasets.map (fun x => x.name)).Nodup →
      update_dataset_committed u ⟨some d.name, none, none, none⟩ st = .ok (d, st))
    ∧ (∀ d, findDatasetByUuid st u = some d →
      (∀ x ∈ st.datasets, x.dataset_uuid ≠ u → x.name ≠ "") →
      update_dataset_committed u ⟨some "", none, none, none⟩ st
        = .ok ({ d with name := "" }, setDatasetRow st u { d with name := "" }))
    ∧ (∀ d B, findDatasetByUuid st u = some d →
      B ∈ st.datasets → B.dataset_uuid ≠ u → B.name = "" →
      update_dataset_committed u ⟨some "", none, none, none⟩ st = .error .integrityError) := by
  refine ⟨?_, ?_, ?_, ?_, ?_, ?_⟩
  · intro r hr hnd hndn
    have hset := setSchemaRow_self hr hnd
    have hhandler : update_schema u ⟨some r.name, none, none⟩ st = .ok (r, st) := by
      simp [update_schema, hr, schemaDupName, applySchemaFields, hset]
    have hru : r.schema_uuid = u := findSchemaByUuid_uuid hr
    have hmem : r ∈ st.schemas := List.mem_of_find?_eq_some hr
    have hinj := List.inj_on_of_nodup_map hndn
    have hnone : st.schemas.find? (fun x => x.name == r.name && !(x.schema_uuid == u)) = none := by
      apply List.find?_eq_none.mpr
      intro x hx
      by_cases hn : x.name = r.name
      · have hx_eq : x = r := hinj hx hmem hn
        simp [hx_eq, hru]
      · simp [hn]
    simp [update_schema_committed, hhandler, hnone]
  · intro r hr hother
    have hhandler : update_schema u ⟨some "", none, none⟩ st
        = .ok ({ r with name := "" }, setSchemaRow st u { r with name := "" }) := by
      simp [update_schema, hr, schemaDupName, applySchemaFields]
    have hnone : st.schemas.find? (fun x => x.name == "" && !(x.schema_uuid == u)) = none := by
      apply List.find?_eq_none.mpr
      intro x hx
      by_cases hxu : x.schema_uuid = u
      · simp [hxu]
      · simp [hother x hx hxu]
    simp [update_schema_committed, hhandler, hnone]
  · intro r B hr hB hBu hBn
    have hhandler : update_schema u ⟨some "", none, none⟩ st
        = .ok ({ r with name := "" }, setSchemaRow st u { r with name := "" }) := by
      simp [update_schema, hr, schemaDupName, applySchemaFields]
    have hviol : (st.schemas.find? (fun x => x.name == "" && !(x.schema_uuid == u))).isSome :=
      List.find?_isSome.mpr ⟨B, hB, by simp [hBn, hBu]⟩
    simp [update_schema_committed, hhandler, hviol]
  · intro d hd hnd hndn
    have hset := setDatasetRow_self hd hnd
    have hhandler : update_dataset u ⟨some d.name, none, none, none⟩ st = .ok (d, st) := by
      simp [update_dataset, hd, datasetDupName, applyDatasetFields, hset]
    have hdu : d.dataset_uuid = u := findDatasetByUuid_uuid hd
    have hmem : d ∈ st.datasets := List.mem_of_find?_eq_some hd
    have hinj := List.inj_on_of_nodup_map hndn
    have hnone : st.datasets.find? (fun x => x.name == d.name && !(x.dataset_uuid == u)) = none := by
      apply List.find?_eq_none.mpr
      intro x hx
      by_cases hn : x.name = d.name
      · have hx_eq : x = d := hinj hx hmem hn
        simp [hx_eq, hdu]
      · simp [hn]
    simp [update_dataset_committed, hhandler, hnone]
  · intro d hd hother
    have hhandler : update_dataset u ⟨some "", none, none, none⟩ st
        = .ok ({ d with name := "" }, setDatasetRow st u { d with name := "" }) := by
      simp [update_dataset, hd, datasetDupName, applyDatasetFields]
    have hnone : st.datasets.find? (fun x => x.name == "" && !(x.dataset_uuid == u)) = none := by
      apply List.find?_eq_none.mpr
      intro x hx
      by_cases hxu : x.dataset_uuid = u
      · simp [hxu]
      · simp [hother x hx hxu]
    simp [update_dataset_committed, hhandler, hnone]
  · intro d B hd hB hBu hBn
    have hhandler : update_dataset u ⟨some "", none, none, none⟩ st
        = .ok ({ d with name := "" }, setDatasetRow st u { d with name := "" }) := by
      simp [update_dataset, hd, datasetDupName, applyDatasetFields]
    have hviol : (st.datasets.find? (fun x => x.name == "" && !(x.dataset_uuid == u))).isSome :=
      List.find?_isSome.mpr ⟨B, hB, by simp [hBn, hBu]⟩
    simp [update_dataset_committed, hhandler, hviol]

/-- Witness for the amended C10: own-name renames and a non-colliding
empty rename on `baseStore` succeed through commit; the colliding
empty renames on `emptyNameStore` / `emptyNameDsStore` fail at commit
with the integrity error. -/
theorem c10_witness :
    update_schema_committed "su1" ⟨some "s1", none, none⟩ baseStore = .ok (rowS1, baseStore)
    ∧ update_schema_committed "su1" ⟨some "", none, none⟩ baseStore
      = .ok ({ rowS1 with name := "" }, setSchemaRow baseStore "su1" { rowS1 with name := "" })
    ∧ update_schema_committed "ua" ⟨some "", none, none⟩ emptyNameStore = .error .integrityError
    ∧ update_dataset_committed "du1" ⟨some "d1", none, none, none⟩ baseStore = .ok (rowD1, baseStore)
    ∧ update_dataset_committed "du1" ⟨some "", none, none, none⟩ baseStore
      = .ok ({ rowD1 with name := "" }, setDatasetRow baseStore "du1" { rowD1 with name := "" })
    ∧ update_dataset_committed "du1" ⟨some "", none, none, none⟩ emptyNameDsStore
        = .error .integrityError :=
  ⟨(c10_name_precheck_skips baseStore "su1").1 rowS1 rfl (by decide) (by decide),
   (c10_name_precheck_skips baseStore "su1").2.1 rowS1 rfl (by decide),
   (c10_name_precheck_skips emptyNameStore "ua").2.2.1 rowA rowEmptyName rfl
     (by simp [emptyNameStore]) (by decide) rfl,
   (c10_name_precheck_skips baseStore "du1").2.2.2.1 rowD1 rfl (by decide) (by decide),
   (c10_name_precheck_skips baseStore "du1").2.2.2.2.1 rowD1 rfl (by decide),
   (c10_name_precheck_skips emptyNameDsStore "du1").2.2.2.2.2 rowD1 rowDEmpty rfl
     (by simp [emptyNameDsStore]) (by decide) rfl⟩

/-- The C1 scenario's update: a new `schema_uuid` (`rowS2`) and new
content `{"y": 2}` supplied together. -/
def updNewSchemaAndContent : DatasetUpdate :=
  { name := none, schema_uuid := some "su2", description := none,
    dataset_content := some "\x7b\"y\": 2\x7d" }

/-- C1 counterexample: in `baseStore`, dataset `du1`'s stored
`schema_uuid` is `su1`, and the new content `{"y": 2}` does NOT
validate against that stored schema — yet the update supplying both a
new `schema_uuid` and this content succeeds, applying both fields. So
the supplied content is not revalidated against the schema referenced
by the record's stored `schema_uuid` before fields are applied. -/
theorem c1_counterexample :
    findDatasetByUuid baseStore "du1" = some rowD1
    ∧ rowD1.schema_uuid = "su1"
    ∧ findSchemaByUuid baseStore "su1" = some rowS1
    ∧ validateInstance (.obj [("y", .num 2)]) rowS1.schema_content = false
    ∧ update_dataset "du1" updNewSchemaAndContent baseStore
        = .ok ({ rowD1 with schema_uuid := "su2", dataset_content := .obj [("y", .num 2)] },
               setDatasetRow baseStore "du1"
                 { rowD1 with schema_uuid := "su2", dataset_content := .obj [("y", .num 2)] }) :=
  ⟨rfl, rfl, rfl, rfl, rfl⟩

/-- C1 (amended): when `UpdateDataset` supplies both a new `schema_id`
and new content, the handler assigns the supplied `schema_uuid` to the
record first, and the content is validated against the schema
referenced by the NEW `schema_uuid` (missing new schema:
`SchemaNotFound`; validation judged by the new schema's content). -/
theorem c1_amended_validates_against_new_schema (st : Store) (u : String)
    (upd : DatasetUpdate) (cur : JSONDatasetDB) (su txt : String) (j : Json)
    (hfind : findDatasetByUuid st u = some cur)
    (hsu : upd.schema_uuid = some su)
    (htxt : upd.dataset_content = some txt)
    (hname : datasetDupName st u cur upd.name = false)
    (hparse : parseJson txt = some j) :
    ((applyDatasetFields cur upd).schema_uuid = su)
    ∧ (findSchemaByUuid st su = none → update_dataset u upd st = .error .schemaNotFound)
    ∧ (∀ srec, findSchemaByUuid st su = some srec →
        validateInstance j srec.schema_content = false →
        update_dataset u upd st = .error .validationFailed)
    ∧ (∀ srec, findSchemaByUuid st su = some srec →
        validateInstance j srec.schema_content = true →
        update_dataset u upd st
          = .ok ({ applyDatasetFields cur upd with dataset_content := j },
                 setDatasetRow st u { applyDatasetFields cur upd with dataset_content := j })) := by
  have happ : (applyDatasetFields cur upd).schema_uuid = su := by
    simp [applyDatasetFields, hsu]
  refine ⟨happ, ?_, ?_, ?_⟩
  · intro hs
    simp [update_dataset, hfind, hname, htxt, hparse, happ, hs]
  · intro srec hs hv
    simp [update_dataset, hfind, hname, htxt, hparse, happ, hs, hv]
  · intro srec hs hv
    simp [update_dataset, hfind, hname, htxt, hparse, happ, hs, hv]

/-- Witness for the amended C1: the concrete success case of
`c1_counterexample`, validated against the new schema `rowS2`. -/
theorem c1_amended_witness :
    ((applyDatasetFields rowD1 updNewSchemaAndContent).schema_uuid = "su2")
    ∧ update_dataset "du1" updNewSchemaAndContent baseStore
        = .ok ({ applyDatasetFields rowD1 updNewSchemaAndContent with
                   dataset_content := .obj [("y", .num 2)] },
               setDatasetRow baseStore "du1"
                 { applyDatasetFields rowD1 updNewSchemaAndContent with
                     dataset_content := .obj [("y", .num 2)] }) :=
  ⟨(c1_amended_validates_against_new_schema baseStore "du1" updNewSchemaAndContent rowD1
      "su2" "\x7b\"y\": 2\x7d" (.obj [("y", .num 2)]) rfl rfl rfl rfl rfl).1,
   (c1_amended_validates_against_new_schema baseStore "du1" updNewSchemaAndContent rowD1
      "su2" "\x7b\"y\": 2\x7d" (.obj [("y", .num 2)]) rfl rfl rfl rfl rfl).2.2.2 rowS2 rfl rfl⟩

/-- The C2 scenario's update: only a (nonexistent) `schema_uuid`. -/
def updMissingSchemaOnly : DatasetUpdate :=
  { name := none, schema_uuid := some "missing", description := none, dataset_content := none }

/-- C2 counterexample: no schema with uuid `missing` exists in
`baseStore`, yet updating dataset `du1` with `schema_id = missing` and
no content succeeds (the claim expects `SchemaNotFound`), storing the
dangling reference. -/
theorem c2_counterexample :
    findSchemaByUuid baseStore "missing" = none
    ∧ update_dataset "du1" updMissingSchemaOnly baseStore
        = .ok ({ rowD1 with schema_uuid := "missing" },
               setDatasetRow baseStore "du1" { rowD1 with schema_uuid := "missing" }) :=
  ⟨rfl, rfl⟩

/-- C2 (amended): a supplied `schema_id` is checked for existence only
when content is supplied in the same update; when content is absent,
the update succeeds and applies the supplied fields with no existence
check of the new `schema_id` at all. -/
theorem c2_amended_no_existence_check_without_content (st : Store) (u : String)
    (upd : DatasetUpdate) (cur : JSONDatasetDB)
    (hfind : findDatasetByUuid st u = some cur)
    (hname : datasetDupName st u cur upd.name = false)
    (hct : upd.dataset_content = none) :
    update_dataset u upd st
      = .ok (applyDatasetFields cur upd, setDatasetRow st u (applyDatasetFields cur upd)) := by
  simp [update_dataset, hfind, hname, hct]

/-- Witness for the amended C2 at the counterexample's input. -/
theorem c2_amended_witness :
    update_dataset "du1" updMissingSchemaOnly baseStore
      = .ok (applyDatasetFields rowD1 updMissingSchemaOnly,
             setDatasetRow baseStore "du1" (applyDatasetFields rowD1 updMissingSchemaOnly)) :=
  c2_amended_no_existence_check_without_content baseStore "du1" updMissingSchemaOnly rowD1
    rfl rfl rfl

/-- C4 counterexample: for the query `"."`, `search_schemas` returns
the row whose serialized content is `[1]` — the regex `.` matches any
character — although `"."` is not a case-insensitive substring of its
name, description, or serialized content. The content condition is the
regex operator `~*`, not substring containment. -/
theorem c4_counterexample :
    search_schemas "." searchStore = some [rowSearch]
    ∧ specSearchMatchesSchema "." rowSearch = false :=
  ⟨rfl, rfl⟩

/-- C4 (amended): for queries inside the modelled regex fragment,
text search returns exactly the rows whose name or description match
`ILIKE '%q%'` or whose serialized content matches `q` as a
case-insensitive regex (`~*`) — not substring containment on content. -/
theorem c4_amended_search_semantics (q : String) (st : Store) (ps : List RPiece)
    (hc : compileRegex q.data = some ps) :
    (∀ out, search_schemas q st = some out →
      ∀ r, r ∈ out ↔ r ∈ st.schemas ∧
        (ilike r.name q ||
         (match r.description with | some d => ilike d q | none => false) ||
         reMatches ps (Json.dumps r.schema_content)) = true)
    ∧ (∀ out, search_datasets q st = some out →
      ∀ d, d ∈ out ↔ d ∈ st.datasets ∧
        (ilike d.name q ||
         (match d.description with | some s => ilike s q | none => false) ||
         reMatches ps (Json.dumps d.dataset_content)) = true) := by
  constructor
  · intro out hout r
    unfold search_schemas at hout
    rw [hc] at hout
    simp only [Option.some.injEq] at hout
    subst hout
    simp [List.mem_filter]
  · intro out hout d
    unfold search_datasets at hout
    rw [hc] at hout
    simp only [Option.some.injEq] at hout
    subst hout
    simp [List.mem_filter]

/-- Witness for the amended C4 at the counterexample's input: the
returned row is characterized by the code's three conditions. -/
theorem c4_amended_witness :
    rowSearch ∈ [rowSearch] ↔ rowSearch ∈ searchStore.schemas ∧
      (ilike rowSearch.name "." ||
       (match rowSearch.description with | some d => ilike d "." | none => false) ||
       reMatches [RPiece.once .dot] (Json.dumps rowSearch.schema_content)) = true :=
  (c4_amended_search_semantics "." searchStore [RPiece.once .dot] rfl).1 [rowSearch] rfl rowSearch

/-- C5 counterexample: in `emptyNameStore`, the empty name `""`
already belongs to schema `ub`, a different schema than `ua`, so the
claim requires `UpdateSchema(ua, {name: ""})` to fail with
`DuplicateName`; but the handler's truthiness test skips the
duplicate-name pre-check for an empty string, and the collision is
instead caught at commit by the UNIQUE constraint on
`json_schemas.name`, as the commit's integrity error (an unhandled
500), not `DuplicateName`. The schema's fields stay unchanged (the
transaction is rolled back), but the error kind refutes the claim. -/
theorem c5_counterexample :
    rowEmptyName ∈ emptyNameStore.schemas
    ∧ rowEmptyName.schema_uuid ≠ "ua"
    ∧ rowEmptyName.name = ""
    ∧ findSchemaByUuid emptyNameStore "ua" = some rowA
    ∧ update_schema_committed "ua" ⟨some "", none, none⟩ emptyNameStore = .error .integrityError
    ∧ update_schema_committed "ua" ⟨some "", none, none⟩ emptyNameStore ≠ .error .duplicateName := by
  refine ⟨by simp [emptyNameStore], by decide, rfl, rfl, rfl, ?_⟩
  intro h
  exact ApiError.noConfusion (Except.error.inj
    ((rfl : update_schema_committed "ua" ⟨some "", none, none⟩ emptyNameStore
        = Except.error ApiError.integrityError).symm.trans h))

/-- C5 (amended): `UpdateSchema(id, {name: newName})` fails with
`DuplicateName` — before anything is applied — whenever `newName` is
NON-EMPTY and already belongs to a different stored schema (store
names pairwise distinct, as the table's unique constraint guarantees);
an empty-string `newName` skips the handler's pre-check, and a
colliding empty name is rejected only at commit by the UNIQUE name
constraint, as a generic integrity error with nothing persisted, not
`DuplicateName`. -/
theorem c5_amended_duplicate_name_rejected :
    (∀ (st : Store) (u : String) (cur B : JSONSchemaDB) (newName : String)
        (descr ct : Option String),
      findSchemaByUuid st u = some cur →
      B ∈ st.schemas → B.schema_uuid ≠ u → B.name = newName → newName ≠ "" →
      (st.schemas.map (fun x => x.name)).Nodup →
      update_schema_committed u ⟨some newName, descr, ct⟩ st = .error .duplicateName)
    ∧ (∀ (st : Store) (u : String) (cur B : JSONSchemaDB),
      findSchemaByUuid st u = some cur →
      B ∈ st.schemas → B.schema_uuid ≠ u → B.name = "" →
      update_schema_committed u ⟨some "", none, none⟩ st = .error .integrityError) := by
  constructor
  · intro st u cur B newName descr ct hfind hB hBu hBn hne hnd
    have hcur : cur ∈ st.schemas := List.mem_of_find?_eq_some hfind
    have hcu : cur.schema_uuid = u := findSchemaByUuid_uuid hfind
    have hBne : B ≠ cur := by
      intro he
      rw [he] at hBu
      exact hBu hcu
    have hname_ne : newName ≠ cur.name := by
      intro he
      exact hBne (List.inj_on_of_nodup_map hnd hB hcur (by rw [hBn, he]))
    have hdup : schemaDupName st u cur (some newName) = true := by
      unfold schemaDupName
      have hfound : (st.schemas.find? (fun r => r.name == newName && !(r.schema_uuid == u))).isSome :=
        List.find?_isSome.mpr ⟨B, hB, by simp [hBn, hBu]⟩
      simp [hne, hname_ne, hfound]
    have hhandler : update_schema u ⟨some newName, descr, ct⟩ st = .error .duplicateName := by
      simp [update_schema, hfind, hdup]
    simp [update_schema_committed, hhandler]
  · intro st u cur B hfind hB hBu hBn
    have hhandler : update_schema u ⟨some "", none, none⟩ st
        = .ok ({ cur with name := "" }, setSchemaRow st u { cur with name := "" }) := by
      simp [update_schema, hfind, schemaDupName, applySchemaFields]
    have hviol : (st.schemas.find? (fun x => x.name == "" && !(x.schema_uuid == u))).isSome :=
      List.find?_isSome.mpr ⟨B, hB, by simp [hBn, hBu]⟩
    simp [update_schema_committed, hhandler, hviol]

/-- Witness for the amended C5: renaming `rowS1` to `rowS2`'s name
`"s2"` in `baseStore` is rejected with `DuplicateName` by the
pre-check; the colliding empty rename in `emptyNameStore` is rejected
at commit with the integrity error. -/
theorem c5_amended_witness :
    update_schema_committed "su1" ⟨some "s2", none, none⟩ baseStore = .error .duplicateName
    ∧ update_schema_committed "ua" ⟨some "", none, none⟩ emptyNameStore = .error .integrityError :=
  ⟨c5_amended_duplicate_name_rejected.1 baseStore "su1" rowS1 rowS2 "s2" none none
     rfl (by simp [baseStore]) (by decide) rfl (by decide) (by decide),
   c5_amended_duplicate_name_rejected.2 emptyNameStore "ua" rowA rowEmptyName
     rfl (by simp [emptyNameStore]) (by decide) rfl⟩
